import Mathlib

/-!
# Verification of the KaliPi status-collection and command-execution subsystem

Shallow embedding of the Python sources of `findthefunction/kalipi`:

* `src/agent/server.py`   — token file reading and bearer-token authorization
* `src/agent/commands.py` — bounded-timeout shell runner, command registry,
  and dispatch
* `src/dashboard/data.py` — the background data collector producing a full
  status snapshot each cycle

Machine-level effects (subprocess execution, file reads, the wall clock)
are modelled as explicit inputs: a `World` maps a shell command line and a
timeout to its outcome, file contents arrive as `Option String`
(`none` = the read raised), and timestamps are passed in as strings.
Python floats are modelled by exact rationals, with Python's
round-half-to-even spelled out as `roundHalfEven`.
-/

set_option maxRecDepth 4096

/-- ASCII whitespace recognised by Python's `str.strip()` / `str.split()`
(space, tab, newline, carriage return, vertical tab, form feed; the rare
extra Unicode whitespace accepted by Python is not modelled). -/
def isPySpace (c : Char) : Bool :=
  c = ' ' || c = Char.ofNat 9 || c = Char.ofNat 10 || c = Char.ofNat 13 ||
  c = Char.ofNat 11 || c = Char.ofNat 12

/-- Python `str.strip()`: drop leading and trailing whitespace. -/
def pyStrip (s : String) : String :=
  String.mk (((s.data.dropWhile isPySpace).reverse.dropWhile isPySpace).reverse)

/-- Python truthiness of a string: nonempty. -/
def pyTruthy (s : String) : Bool := s ≠ ""

/-- Python `a or b` on strings: `a` when truthy, else `b`. -/
def pyOr (a b : String) : String := if a = "" then b else a

/-- Helper for whitespace splitting: accumulate the current word (reversed). -/
def splitWsAux : List Char → List Char → List String
  | [], [] => []
  | [], acc => [String.mk acc.reverse]
  | c :: rest, acc =>
    if isPySpace c then
      match acc with
      | [] => splitWsAux rest []
      | _ => String.mk acc.reverse :: splitWsAux rest []
    else splitWsAux rest (c :: acc)

/-- Python `str.split()` with no argument: split on runs of whitespace,
discarding empty fields. -/
def pySplitWs (s : String) : List String := splitWsAux s.data []

/-- All-digit nonempty string to a number (ASCII digits only). -/
def parseDigits : List Char → Option Nat
  | [] => none
  | cs =>
    if cs.all (fun c => c.isDigit) then
      some (cs.foldl (fun n c => n * 10 + (c.toNat - 48)) 0)
    else none

/-- Python `int(str)`: strip whitespace, optional sign, then decimal digits;
anything else raises `ValueError` (modelled as `none`). Python's digit
grouping with underscores is not modelled. -/
def pyIntParse (s : String) : Option Int :=
  match (pyStrip s).data with
  | [] => none
  | c :: rest =>
    if c = '-' then (parseDigits rest).map (fun n => -(n : Int))
    else if c = '+' then (parseDigits rest).map (fun n => (n : Int))
    else (parseDigits (c :: rest)).map (fun n => (n : Int))

/-- Python 3 `round(x)` to an integer: round half to even. The code applies
it to floats; we model the arithmetic over exact rationals. -/
def roundHalfEven (q : ℚ) : ℤ :=
  if q - (⌊q⌋ : ℚ) < 1/2 then ⌊q⌋
  else if 1/2 < q - (⌊q⌋ : ℚ) then ⌊q⌋ + 1
  else if ⌊q⌋ % 2 = 0 then ⌊q⌋ else ⌊q⌋ + 1

/-- Python floor division `a // b` on ints (rounds toward negative infinity). -/
def pyFloorDiv (a b : ℤ) : ℤ := Int.fdiv a b

/-! ## `src/agent/server.py` — token reading and the access gate -/

/-- `_read_token` (server.py:21-27): read the token file and strip it;
a missing file (`FileNotFoundError`) yields `None`. The file contents are
passed in as `Option String` (`none` = file absent). -/
def readToken (file : Option String) : Option String :=
  file.map pyStrip

/-- `KaliPiHandler._check_token` (server.py:111-120): if the token is falsy
(`None` or empty) every request passes; otherwise the `Authorization` header
(defaulted to `""` when absent) must equal `"Bearer " ++ token` exactly.
`auth` is the header value, with a missing header arriving as `""`. -/
def checkToken (file : Option String) (auth : String) : Bool :=
  let token := readToken file
  match token with
  | none => true
  | some t =>
    if t = "" then true
    else auth = "Bearer " ++ t

/-! ## `src/agent/commands.py` — shell runner, registry, dispatch

Subprocess execution is modelled by a `World`: a function from the command
line and the timeout to the outcome of `subprocess.run`. A handler's
side effects are its returned trace of `(command, timeout)` calls. -/

/-- Outcome of `subprocess.run(cmd, shell=True, capture_output=True,
text=True, timeout=t)`: either the process completes with captured output
and a return code, or `subprocess.TimeoutExpired` is raised. -/
inductive RunOutcome where
  | completes (stdout stderr : String) (rc : ℤ)
  | timesOut

/-- The external world: what each shell invocation does. -/
def World : Type := String → Nat → RunOutcome

/-- One recorded shell invocation: command line and timeout. -/
def ShellCall : Type := String × Nat

/-- The record returned by the agent's `_run` (commands.py:14-22). -/
structure RunRec where
  stdout : String
  stderr : String
  rc : ℤ
deriving DecidableEq, Repr

/-- `_run` (commands.py:14-22): run a shell command; on completion return
the stripped stdout/stderr and the return code (JSON keys `stdout`,
`stderr`, `rc`); on `subprocess.TimeoutExpired` return
`{stdout: "", stderr: "command timed out", rc: -1}` as an ordinary value.
The default timeout is `TIMEOUT = 30`. -/
def agentRun (w : World) (cmd : String) (timeout : Nat) : RunRec :=
  match w cmd timeout with
  | .completes out err rc => ⟨pyStrip out, pyStrip err, rc⟩
  | .timesOut => ⟨"", "command timed out", -1⟩

/-- JSON-like values, for the JSON-serializable dicts command handlers
return. Objects are insertion-ordered key/value lists, as Python dicts are. -/
inductive J where
  | s : String → J
  | i : ℤ → J
  | arr : List J → J
  | obj : List (String × J) → J

/-- Lookup in a JSON object's field list (Python `d[k]` / `d.get(k)`). -/
def jGet (fields : List (String × J)) (k : String) : Option J :=
  fields.lookup k

/-- Python dict assignment `d[k] = v`: replace the value in place if the
key exists, else append the pair at the end. -/
def jSet (fields : List (String × J)) (k : String) (v : J) :
    List (String × J) :=
  match fields with
  | [] => [(k, v)]
  | (k0, v0) :: rest =>
    if k0 = k then (k, v) :: rest else (k0, v0) :: jSet rest k v

/-- Command-handler `args`: a string-to-string mapping (the JSON body's
`args` object, as used by the handlers under scrutiny). -/
def Args : Type := List (String × String)

/-- Python `args.get(k, d)`. -/
def argsGetD (args : Args) (k d : String) : String :=
  (List.lookup k args).getD d

/-- A single ASCII apostrophe (0x27), as it appears in the source's
f-string messages. -/
def apos : String := String.mk [Char.ofNat 39]

/-- Python `repr` of a list of strings, e.g. `['a', 'b']`, as interpolated
by `f"... {allowed}"`. -/
def pyReprList (l : List String) : String :=
  "[" ++ String.intercalate ", " (l.map (fun x => apos ++ x ++ apos)) ++ "]"

/-- The fields of a `RunRec` as a JSON object body (the dict `_run`
returns). -/
def RunRec.toFields (r : RunRec) : List (String × J) :=
  [("stdout", J.s r.stdout), ("stderr", J.s r.stderr), ("rc", J.i r.rc)]

/-- `cmd_security_scan` (commands.py:25-27). -/
def cmd_security_scan (w : World) (_args : Args) :
    List (String × J) × List ShellCall :=
  ((agentRun w "/opt/kalipi/scripts/security-check.sh" 120).toFields,
   [("/opt/kalipi/scripts/security-check.sh", 120)])

/-- The monitored-services list of `cmd_service_status` (commands.py:32-33). -/
def monitoredServices : List String :=
  ["ssh", "tailscaled", "fail2ban", "suricata", "auditd",
   "kalipi-dashboard", "kalipi-agent"]

/-- The query `cmd_service_status` issues per service. -/
def svcQuery (svc : String) : String := "systemctl is-active " ++ svc

/-- `cmd_service_status` (commands.py:30-38): query each monitored service
with a 5s timeout; record `r["stdout"] or "unknown"` per service, plus a
timestamp. The source interleaves the queries and the dict writes in one
loop; the trace is the same list of calls in the same order. -/
def cmd_service_status (w : World) (ts : String) (_args : Args) :
    List (String × J) × List ShellCall :=
  let statuses := monitoredServices.map (fun svc =>
    (svc, J.s (pyOr (agentRun w (svcQuery svc) 5).stdout "unknown")))
  ([("services", J.obj statuses), ("timestamp", J.s ts)],
   monitoredServices.map (fun svc => (svcQuery svc, 5)))

/-- The restart allow-list of `cmd_restart_service` (commands.py:43). -/
def allowedRestart : List String :=
  ["kalipi-dashboard", "kalipi-agent", "fail2ban", "suricata"]

/-- The error message `f"service '{svc}' not in allowed list: {allowed}"`. -/
def restartErrMsg (svc : String) : String :=
  "service " ++ apos ++ svc ++ apos ++ " not in allowed list: " ++
    pyReprList allowedRestart

/-- `cmd_restart_service` (commands.py:41-47): read `args.get("service", "")`;
if it is not on the allow-list return the error object without touching the
shell; otherwise run `systemctl restart <svc>` with the default timeout. -/
def cmd_restart_service (w : World) (args : Args) :
    List (String × J) × List ShellCall :=
  let svc := argsGetD args "service" ""
  if svc ∈ allowedRestart then
    ((agentRun w ("systemctl restart " ++ svc) 30).toFields,
     [("systemctl restart " ++ svc, 30)])
  else
    ([("error", J.s (restartErrMsg svc))], [])

/-- `cmd_network_scan` (commands.py:50-52). -/
def networkScanCmd : String :=
  "nmap -sn 192.168.0.0/24 -oG - 2>/dev/null | grep " ++ apos ++
    "Status: Up" ++ apos

/-- `cmd_network_scan` (commands.py:50-52). -/
def cmd_network_scan (w : World) (_args : Args) :
    List (String × J) × List ShellCall :=
  ((agentRun w networkScanCmd 60).toFields, [(networkScanCmd, 60)])

/-- `cmd_fail2ban_status` (commands.py:55-57). -/
def cmd_fail2ban_status (w : World) (_args : Args) :
    List (String × J) × List ShellCall :=
  ((agentRun w "fail2ban-client status sshd" 30).toFields,
   [("fail2ban-client status sshd", 30)])

/-- `cmd_tailscale_status` (commands.py:60-62). -/
def cmd_tailscale_status (w : World) (_args : Args) :
    List (String × J) × List ShellCall :=
  ((agentRun w "tailscale status" 30).toFields, [("tailscale status", 30)])

/-- `cmd_disk_usage` (commands.py:65-67). -/
def cmd_disk_usage (w : World) (_args : Args) :
    List (String × J) × List ShellCall :=
  ((agentRun w "df -h /" 30).toFields, [("df -h /", 30)])

/-- The log-source map of `cmd_recent_logs` (commands.py:73-79). -/
def logMap : List (String × String) :=
  [("security",
    "journalctl -u ssh --since " ++ apos ++ "1 hour ago" ++ apos ++
      " --no-pager -n 50"),
   ("suricata",
    "tail -n 50 /var/log/suricata/fast.log 2>/dev/null || echo " ++ apos ++
      "no suricata log" ++ apos),
   ("fail2ban",
    "tail -n 50 /var/log/fail2ban.log 2>/dev/null || echo " ++ apos ++
      "no fail2ban log" ++ apos),
   ("dashboard",
    "tail -n 50 /var/log/kalipi-dashboard.log 2>/dev/null || echo " ++ apos ++
      "no dashboard log" ++ apos),
   ("agent",
    "journalctl -u kalipi-agent --since " ++ apos ++ "1 hour ago" ++ apos ++
      " --no-pager -n 50")]

/-- `cmd_recent_logs` (commands.py:70-82). -/
def cmd_recent_logs (w : World) (args : Args) :
    List (String × J) × List ShellCall :=
  let source := argsGetD args "source" "security"
  match List.lookup source logMap with
  | none =>
    ([("error", J.s ("unknown source: " ++ source)),
      ("available", J.arr ((logMap.map Prod.fst).map J.s))], [])
  | some cmd => ((agentRun w cmd 30).toFields, [(cmd, 30)])

/-- A registered handler, as `run_command` sees it: it may produce a result
dict or raise (`Except.error` carries `str(e)`). -/
def HandlerFn : Type := Args → Except String (List (String × J))

/-- The `COMMANDS` registry (commands.py:86-95), parameterized by the world
and the cycle timestamp; the concrete handlers never raise. -/
def COMMANDS (w : World) (ts : String) : List (String × HandlerFn) :=
  [("security-scan", fun a => .ok (cmd_security_scan w a).1),
   ("service-status", fun a => .ok (cmd_service_status w ts a).1),
   ("restart-service", fun a => .ok (cmd_restart_service w a).1),
   ("network-scan", fun a => .ok (cmd_network_scan w a).1),
   ("fail2ban-status", fun a => .ok (cmd_fail2ban_status w a).1),
   ("tailscale-status", fun a => .ok (cmd_tailscale_status w a).1),
   ("disk-usage", fun a => .ok (cmd_disk_usage w a).1),
   ("recent-logs", fun a => .ok (cmd_recent_logs w a).1)]

/-- `run_command` (commands.py:98-109): look the name up; absent (falsy) →
`{error: "unknown command: <name>"}`; a handler exception →
`{error: str(e), command: name}`; success → the result stamped with
`command` and `timestamp`. `ts` is `time.strftime("%Y-%m-%dT%H:%M:%S%z")`. -/
def run_command (reg : List (String × HandlerFn)) (ts : String)
    (name : String) (args : Args) : J :=
  match List.lookup name reg with
  | none => J.obj [("error", J.s ("unknown command: " ++ name))]
  | some fn =>
    match fn args with
    | .error e => J.obj [("error", J.s e), ("command", J.s name)]
    | .ok fields =>
      J.obj (jSet (jSet fields "command" (J.s name)) "timestamp" (J.s ts))

/-! ## `src/dashboard/data.py` — the snapshot collector

Each `try/except` block of `DataCollector._collect` reads one OS source;
a block's source value arrives as an `Option` (`none` = the read or parse
raised) or, for the `_run`-backed shell probes, as the already-stripped
stdout string (`""` = any failure, mirroring the dashboard `_run` at
data.py:14-22). Float arithmetic is modelled over exact rationals. -/

/-- One entry of `recent_alerts` in the security-status JSON. -/
structure SecAlert where
  timestamp : String
  signature : String
  severity : String

/-- One entry of `network_devices` in the security-status JSON. -/
structure NetDevice where
  ip : String
  mac : Option String
  vendor : Option String

/-- A parsed `security-status.json` document (data.py:196-209); each field
is `none` when the key is absent, making `sec.get(key, default)` explicit. -/
structure SecDoc where
  alerts : Option ℤ
  failed_ssh : Option ℤ
  f2b_banned : Option ℤ
  banned_ips : Option (List String)
  timestamp : Option String
  recent_alerts : Option (List SecAlert)
  network_devices : Option (List NetDevice)

/-- The snapshot dict built by `DataCollector._collect`; the field set and
defaults are those of `DataCollector._empty` (data.py:35-70). -/
structure Snapshot where
  cpu_pct : ℤ
  cpu_temp : ℤ
  mem_used : ℤ
  mem_total : ℤ
  mem_pct : ℤ
  disk_used : String
  disk_total : String
  disk_pct : ℤ
  uptime : String
  load_avg : String
  wlan_ip : String
  ts_ip : String
  ts_state : String
  svc_ssh : String
  svc_tailscale : String
  svc_fail2ban : String
  svc_suricata : String
  svc_auditd : String
  alerts : ℤ
  failed_ssh : ℤ
  f2b_banned : ℤ
  banned_ips : List String
  last_check : String
  recent_alerts : List SecAlert
  network_devices : List NetDevice
  collected_at : String

/-- `DataCollector._empty` (data.py:35-70): the all-default snapshot. -/
def emptySnap : Snapshot :=
  { cpu_pct := 0, cpu_temp := 0, mem_used := 0, mem_total := 0, mem_pct := 0,
    disk_used := "?", disk_total := "?", disk_pct := 0, uptime := "?",
    load_avg := "?", wlan_ip := "disconnected", ts_ip := "offline",
    ts_state := "unknown", svc_ssh := "unknown", svc_tailscale := "unknown",
    svc_fail2ban := "unknown", svc_suricata := "unknown",
    svc_auditd := "unknown", alerts := 0, failed_ssh := 0, f2b_banned := 0,
    banned_ips := [], last_check := "never", recent_alerts := [],
    network_devices := [], collected_at := "" }

/-- The inputs of one collection cycle. `procStat` is the parsed
`(idle, total)` counter pair, `thermal` the raw millidegree reading,
`meminfo` the parsed `key ↦ value` lines in file order, `statvfs` the
`(f_blocks, f_bavail, f_frsize)` triple, `uptimeSecs` the first field of
`/proc/uptime`, `loadavgContent` that file's text; the nine strings are the
stripped stdout of the dashboard `_run` probes (`""` = failure); `secFile`
is `none` when `os.path.isfile` is false and `some none` when the JSON
read/parse raised. -/
structure Env where
  procStat : Option (ℤ × ℤ)
  thermal : Option ℤ
  meminfo : Option (List (String × ℤ))
  statvfs : Option (Nat × Nat × Nat)
  uptimeSecs : Option ℚ
  loadavgContent : Option String
  wlanIp : String
  tsIp : String
  tsState : String
  svcSsh : String
  svcTailscaled : String
  svcFail2ban : String
  svcSuricata : String
  svcAuditd : String
  secFile : Option (Option SecDoc)
  f2bLive : String

/-- The CPU block (data.py:99-118): diff the counters against the stored
previous pair (first cycle: `getattr` defaults to the current reading);
`round(100.0 * (1.0 - diff_idle / diff_total))` when the total delta is
positive, else 0. Returns the percentage and the new stored pair; on a
failed read the stored pair is left untouched. -/
def cpuBlock (src : Option (ℤ × ℤ)) (prev : Option (ℤ × ℤ)) :
    ℤ × Option (ℤ × ℤ) :=
  match src with
  | none => (0, prev)
  | some (idle, total) =>
    let prevIdle := (prev.map Prod.fst).getD idle
    let prevTotal := (prev.map Prod.snd).getD total
    let diffIdle := idle - prevIdle
    let diffTotal := total - prevTotal
    ((if diffTotal > 0 then
        roundHalfEven (100 * (1 - (diffIdle : ℚ) / (diffTotal : ℚ)))
      else 0),
     some (idle, total))

/-- The temperature block (data.py:121-125): `int(text) // 1000`. -/
def tempBlock : Option ℤ → ℤ
  | none => 0
  | some t => pyFloorDiv t 1000

/-- Python dict built by inserting the parsed lines in order: a later
occurrence of a key overwrites an earlier one, so look up the last. -/
def lastGet (mi : List (String × ℤ)) (k : String) : Option ℤ :=
  List.lookup k mi.reverse

/-- The memory block (data.py:128-140): returns
`(mem_used, mem_total, mem_pct)`; on failure all three stay 0 (the
defaults), and `mem_pct` stays 0 unless `mem_total > 0`. -/
def memBlock (src : Option (List (String × ℤ))) : ℤ × ℤ × ℤ :=
  match src with
  | none => (0, 0, 0)
  | some mi =>
    let total := (lastGet mi "MemTotal").getD 0
    let available :=
      (lastGet mi "MemAvailable").getD ((lastGet mi "MemFree").getD 0)
    let memTotal := pyFloorDiv total 1024
    let memUsed := pyFloorDiv (total - available) 1024
    (memUsed, memTotal,
     if memTotal > 0 then
       roundHalfEven (100 * (memUsed : ℚ) / (memTotal : ℚ))
     else 0)

/-- Left-pad with zeros to `d` digits. -/
def padZeros (s : String) (d : Nat) : String :=
  String.mk (List.replicate (d - s.length) '0') ++ s

/-- Python `f"{x:.df}"` fixed-point formatting, over exact rationals:
correctly round to `d` decimal places (ties to even) and print. -/
def formatFixed (q : ℚ) (d : Nat) : String :=
  let n := roundHalfEven (q * (10 : ℚ) ^ d)
  if d = 0 then toString n
  else
    let m := n.natAbs
    (if n < 0 then "-" else "") ++ toString (m / 10 ^ d) ++ "." ++
      padZeros (toString (m % 10 ^ d)) d

/-- The disk block (data.py:143-152): returns
`(disk_used, disk_total, disk_pct)` with the `"{:.1f}G"` / `"{:.0f}G"`
formatting of the source; defaults `("?", "?", 0)` on failure. -/
def diskBlock (src : Option (Nat × Nat × Nat)) : String × String × ℤ :=
  match src with
  | none => ("?", "?", 0)
  | some (blocks, bavail, frsize) =>
    let totalGb : ℚ := ((blocks * frsize : ℕ) : ℚ) / (1024 : ℚ) ^ 3
    let freeGb : ℚ := ((bavail * frsize : ℕ) : ℚ) / (1024 : ℚ) ^ 3
    let usedGb := totalGb - freeGb
    (formatFixed usedGb 1 ++ "G", formatFixed totalGb 0 ++ "G",
     if totalGb > 0 then roundHalfEven (100 * usedGb / totalGb) else 0)

/-- Python float `a % b` for positive `b` (used on uptime seconds). -/
def qmod (a b : ℚ) : ℚ := a - b * ((⌊a / b⌋ : ℤ) : ℚ)

/-- The uptime block (data.py:155-168): split seconds into days, hours and
minutes and render the `"Xd Xh Xm"` / `"Xh Xm"` / `"Xm"` form. -/
def uptimeBlock : Option ℚ → String
  | none => "?"
  | some secs =>
    let days : ℤ := ⌊secs / 86400⌋
    let hours : ℤ := ⌊(qmod secs 86400) / 3600⌋
    let mins : ℤ := ⌊(qmod secs 3600) / 60⌋
    if days > 0 then
      toString days ++ "d " ++ toString hours ++ "h " ++ toString mins ++ "m"
    else if hours > 0 then toString hours ++ "h " ++ toString mins ++ "m"
    else toString mins ++ "m"

/-- The load-average block (data.py:171-175):
`" ".join(content.split()[:3])`. -/
def loadBlock : Option String → String
  | none => "?"
  | some content => String.intercalate " " ((pySplitWs content).take 3)

/-- The security-status fields merged from the JSON document
(data.py:197-209); both a missing file and a failed read/parse leave the
defaults. -/
structure SecFields where
  alerts : ℤ
  failed_ssh : ℤ
  f2b_banned : ℤ
  banned_ips : List String
  last_check : String
  recent_alerts : List SecAlert
  network_devices : List NetDevice

/-- The security-status block (data.py:197-209). -/
def secBlock : Option (Option SecDoc) → SecFields
  | some (some sec) =>
    ⟨sec.alerts.getD 0, sec.failed_ssh.getD 0, sec.f2b_banned.getD 0,
     sec.banned_ips.getD [], sec.timestamp.getD "never",
     sec.recent_alerts.getD [], sec.network_devices.getD []⟩
  | _ => ⟨0, 0, 0, [], "never", [], []⟩

/-- The fail2ban fallback (data.py:212-219): when the merged count is 0,
try `int` on the live `fail2ban-client` probe output; a `ValueError`
leaves the 0. -/
def f2bFinal (secSrc : Option (Option SecDoc)) (live : String) : ℤ :=
  let m := (secBlock secSrc).f2b_banned
  if m = 0 then (pyIntParse live).getD 0 else m

/-- `DataCollector._collect` (data.py:95-221): build the snapshot from an
all-default dict, each source in its own `try/except`; returns the snapshot
together with the new stored CPU counter pair (the collector's private
state). `now` is `time.strftime("%H:%M:%S")`. -/
def collect (env : Env) (now : String) (prev : Option (ℤ × ℤ)) :
    Snapshot × Option (ℤ × ℤ) :=
  let cpu := cpuBlock env.procStat prev
  let mem := memBlock env.meminfo
  let dsk := diskBlock env.statvfs
  let sec := secBlock env.secFile
  ({ cpu_pct := cpu.1
     cpu_temp := tempBlock env.thermal
     mem_used := mem.1
     mem_total := mem.2.1
     mem_pct := mem.2.2
     disk_used := dsk.1
     disk_total := dsk.2.1
     disk_pct := dsk.2.2
     uptime := uptimeBlock env.uptimeSecs
     load_avg := loadBlock env.loadavgContent
     wlan_ip := pyOr env.wlanIp "disconnected"
     ts_ip := pyOr env.tsIp "offline"
     ts_state := pyOr env.tsState "unknown"
     svc_ssh := pyOr env.svcSsh "unknown"
     svc_tailscale := pyOr env.svcTailscaled "unknown"
     svc_fail2ban := pyOr env.svcFail2ban "unknown"
     svc_suricata := pyOr env.svcSuricata "unknown"
     svc_auditd := pyOr env.svcAuditd "unknown"
     alerts := sec.alerts
     failed_ssh := sec.failed_ssh
     f2b_banned := f2bFinal env.secFile env.f2bLive
     banned_ips := sec.banned_ips
     last_check := sec.last_check
     recent_alerts := sec.recent_alerts
     network_devices := sec.network_devices
     collected_at := now },
   cpu.2)

/-- The metric sources of a collection cycle, one per `try/except` block /
probe of `_collect`. -/
inductive Src where
  | procStat | thermal | meminfo | statvfs | uptimeSecs | loadavg
  | wlanIp | tsIp | tsState
  | svcSsh | svcTailscaled | svcFail2ban | svcSuricata | svcAuditd
  | secFile | f2bLive

/-- Simulate the failure of one source: the `Option`-backed reads raise
(`none`; for the status file, a present-but-malformed document `some none`),
the `_run`-backed probes return `""`. -/
def failAt (env : Env) : Src → Env
  | .procStat => { env with procStat := none }
  | .thermal => { env with thermal := none }
  | .meminfo => { env with meminfo := none }
  | .statvfs => { env with statvfs := none }
  | .uptimeSecs => { env with uptimeSecs := none }
  | .loadavg => { env with loadavgContent := none }
  | .wlanIp => { env with wlanIp := "" }
  | .tsIp => { env with tsIp := "" }
  | .tsState => { env with tsState := "" }
  | .svcSsh => { env with svcSsh := "" }
  | .svcTailscaled => { env with svcTailscaled := "" }
  | .svcFail2ban => { env with svcFail2ban := "" }
  | .svcSuricata => { env with svcSuricata := "" }
  | .svcAuditd => { env with svcAuditd := "" }
  | .secFile => { env with secFile := some none }
  | .f2bLive => { env with f2bLive := "" }

/-- What a single source failure does to an otherwise-identical snapshot:
the failed source's fields take the `_empty` defaults and every other field
is untouched. The `f2b_banned` field is fed by two sources: when the
status document fails it falls back to the live `fail2ban-client` probe
(data.py:212-219), and when the live probe fails it keeps the value merged
from the status document. -/
def setFailDefaults (s : Src) (env : Env) (d : Snapshot) : Snapshot :=
  match s with
  | .procStat => { d with cpu_pct := emptySnap.cpu_pct }
  | .thermal => { d with cpu_temp := emptySnap.cpu_temp }
  | .meminfo =>
    { d with mem_used := emptySnap.mem_used, mem_total := emptySnap.mem_total,
             mem_pct := emptySnap.mem_pct }
  | .statvfs =>
    { d with disk_used := emptySnap.disk_used,
             disk_total := emptySnap.disk_total,
             disk_pct := emptySnap.disk_pct }
  | .uptimeSecs => { d with uptime := emptySnap.uptime }
  | .loadavg => { d with load_avg := emptySnap.load_avg }
  | .wlanIp => { d with wlan_ip := emptySnap.wlan_ip }
  | .tsIp => { d with ts_ip := emptySnap.ts_ip }
  | .tsState => { d with ts_state := emptySnap.ts_state }
  | .svcSsh => { d with svc_ssh := emptySnap.svc_ssh }
  | .svcTailscaled => { d with svc_tailscale := emptySnap.svc_tailscale }
  | .svcFail2ban => { d with svc_fail2ban := emptySnap.svc_fail2ban }
  | .svcSuricata => { d with svc_suricata := emptySnap.svc_suricata }
  | .svcAuditd => { d with svc_auditd := emptySnap.svc_auditd }
  | .secFile =>
    { d with alerts := emptySnap.alerts, failed_ssh := emptySnap.failed_ssh,
             banned_ips := emptySnap.banned_ips,
             last_check := emptySnap.last_check,
             recent_alerts := emptySnap.recent_alerts,
             network_devices := emptySnap.network_devices,
             f2b_banned := (pyIntParse env.f2bLive).getD 0 }
  | .f2bLive => { d with f2b_banned := (secBlock env.secFile).f2b_banned }

/-- The cycle environment in which every source fails. -/
def envAllFail : Env :=
  { procStat := none, thermal := none, meminfo := none,
    statvfs := none, uptimeSecs := none, loadavgContent := none,
    wlanIp := "", tsIp := "", tsState := "", svcSsh := "",
    svcTailscaled := "", svcFail2ban := "", svcSuricata := "",
    svcAuditd := "", secFile := none, f2bLive := "" }

/-- A concrete cycle environment for exercising the CPU computation:
`/proc/stat` reads `(idle, total) = (1, 3)`; everything else fails. -/
def cpuEnv : Env := { envAllFail with procStat := some (1, 3) }

/-- A world in which `systemctl is-active` reports `failed` for every
service (a state systemd really produces, alongside `activating` and
`deactivating`). -/
def w8 : World := fun _ _ => RunOutcome.completes "failed" "" 3

/-! ## Theorems -/

/-- **C1** — AccessGate: with the token file absent the check allows every
request; with a (nonempty) token configured, exactly the requests whose
`Authorization` header is `"Bearer "` followed by the token are allowed,
and mismatched or missing bearer credentials are denied (a missing header
arrives as `""`). The check is a total function, so denial is a returned
`false`, never an exception. The present-but-blank token file is settled
separately (see `C10_empty_token_file`). -/
theorem C1_access_gate (file : Option String) (auth : String) :
    (file = none → checkToken file auth = true) ∧
    (∀ t, readToken file = some t → t ≠ "" →
      (checkToken file auth = true ↔ auth = "Bearer " ++ t)) := by
  constructor
  · intro h; subst h; rfl
  · intro t ht hne
    simp only [checkToken, ht, if_neg hne]
    exact ⟨fun h => by simpa using h, fun h => by simpa using h⟩

/-- Witness for `C1_access_gate`: with no token file everything is allowed;
with token file contents `" secret \n"` (stripping to `"secret"`) the header
`"Bearer secret"` is allowed and `"Bearer wrong"` is denied. -/
theorem C1_access_gate_witness :
    checkToken none "anything" = true ∧
    checkToken (some " secret \n") "Bearer secret" = true ∧
    checkToken (some " secret \n") "Bearer wrong" = false := by
  refine ⟨(C1_access_gate none "anything").1 rfl, ?_, ?_⟩
  · exact ((C1_access_gate (some " secret \n") "Bearer secret").2
      "secret" (by decide) (by decide)).mpr (by decide)
  · by_contra h
    have := ((C1_access_gate (some " secret \n") "Bearer wrong").2
      "secret" (by decide) (by decide)).mp (by simpa using h)
    exact absurd this (by decide)

/-- **C10** — a token file that exists but strips to the empty string makes
`_read_token` return `""`, which is falsy, so `_check_token` allows every
request exactly as an absent file does. -/
theorem C10_empty_token_file (contents auth : String)
    (h : pyStrip contents = "") :
    readToken (some contents) = some "" ∧
    checkToken (some contents) auth = true := by
  refine ⟨by simp [readToken, h], ?_⟩
  simp [checkToken, readToken, h]

/-- Witness for `C10_empty_token_file`: the whitespace-only file `"  \n"`
strips empty and the gate passes an arbitrary (even absent, i.e. `""`)
credential. -/
theorem C10_empty_token_file_witness :
    readToken (some "  \n") = some "" ∧ checkToken (some "  \n") "" = true :=
  C10_empty_token_file "  \n" "" (by decide)

/-- **C4** — for every command and timeout, when the subordinate process
exceeds the timeout (`subprocess.TimeoutExpired`), `_run` returns the record
`{stdout: "", stderr: "command timed out", return_code: -1}` (the source
spells the return-code key `rc`) as a normal result. `agentRun` is a total
function, so this outcome is a returned value, never a raised error. -/
theorem C4_timeout_record (w : World) (cmd : String) (timeout : Nat)
    (h : w cmd timeout = .timesOut) :
    agentRun w cmd timeout = ⟨"", "command timed out", -1⟩ := by
  simp [agentRun, h]

/-- Witness for `C4_timeout_record`: a world in which every invocation
times out yields the timeout record for a concrete command. -/
theorem C4_timeout_record_witness :
    agentRun (fun _ _ => RunOutcome.timesOut) "sleep 999" 1 =
      ⟨"", "command timed out", -1⟩ :=
  C4_timeout_record (fun _ _ => RunOutcome.timesOut) "sleep 999" 1 rfl

/-- An assoc-list lookup misses exactly when the key is not among the
stored keys. -/
theorem lookup_eq_none_of_not_mem {β : Type} (name : String)
    (l : List (String × β)) (h : name ∉ l.map Prod.fst) :
    List.lookup name l = none := by
  induction l with
  | nil => rfl
  | cons p rest ih =>
    obtain ⟨k, v⟩ := p
    simp only [List.map_cons, List.mem_cons] at h
    push_neg at h
    have hk : (name == k) = false := beq_eq_false_iff_ne.mpr h.1
    simp [List.lookup, hk, ih h.2]

/-- **C2** — for every args mapping whose `service` value is not in the
allow-list `["kalipi-dashboard", "kalipi-agent", "fail2ban", "suricata"]`,
`cmd_restart_service` returns an error object (its `error` field is the
descriptive message, and the function is total, so no exception) and issues
zero shell invocations; a service on the allow-list issues exactly the
single `systemctl restart <svc>` command. -/
theorem C2_restart_allowlist (w : World) (args : Args) :
    (argsGetD args "service" "" ∉ allowedRestart →
      (cmd_restart_service w args).2 = [] ∧
      jGet (cmd_restart_service w args).1 "error" =
        some (J.s (restartErrMsg (argsGetD args "service" "")))) ∧
    (argsGetD args "service" "" ∈ allowedRestart →
      (cmd_restart_service w args).2 =
        [("systemctl restart " ++ argsGetD args "service" "", 30)]) := by
  constructor
  · intro h
    simp [cmd_restart_service, h, jGet]
  · intro h
    simp [cmd_restart_service, h]

/-- Witness for `C2_restart_allowlist`: `service = "nginx"` (not allowed)
produces no shell call and an `error` field; `service = "fail2ban"`
(allowed) issues exactly the restart command. -/
theorem C2_restart_allowlist_witness :
    ((cmd_restart_service (fun _ _ => RunOutcome.timesOut)
        [("service", "nginx")]).2 = [] ∧
      jGet (cmd_restart_service (fun _ _ => RunOutcome.timesOut)
        [("service", "nginx")]).1 "error" =
        some (J.s (restartErrMsg "nginx"))) ∧
    (cmd_restart_service (fun _ _ => RunOutcome.timesOut)
        [("service", "fail2ban")]).2 = [("systemctl restart fail2ban", 30)] :=
  ⟨(C2_restart_allowlist (fun _ _ => RunOutcome.timesOut)
      [("service", "nginx")]).1 (by decide),
   (C2_restart_allowlist (fun _ _ => RunOutcome.timesOut)
      [("service", "fail2ban")]).2 (by decide)⟩

/-- **C3** — dispatch: (1) for any registry, a name that is absent yields
`{error: "unknown command: <name>"}` (and `run_command` is total, so it
never raises); (2) when the looked-up handler raises with message `e`, the
result is `{error: e, command: name}`; (3) in particular, for the concrete
`COMMANDS` registry, any unregistered name yields the unknown-command error
object. -/
theorem C3_run_command_dispatch (reg : List (String × HandlerFn))
    (ts name : String) (args : Args) :
    (List.lookup name reg = none →
      run_command reg ts name args =
        J.obj [("error", J.s ("unknown command: " ++ name))]) ∧
    (∀ fn e, List.lookup name reg = some fn → fn args = .error e →
      run_command reg ts name args =
        J.obj [("error", J.s e), ("command", J.s name)]) ∧
    (∀ w, name ∉ (COMMANDS w ts).map Prod.fst →
      run_command (COMMANDS w ts) ts name args =
        J.obj [("error", J.s ("unknown command: " ++ name))]) := by
  refine ⟨fun h => by simp [run_command, h], fun fn e h he => ?_, fun w h => ?_⟩
  · simp [run_command, h, he]
  · simp [run_command, lookup_eq_none_of_not_mem name (COMMANDS w ts) h]

/-- Witness for `C3_run_command_dispatch`: a tiny registry with one raising
handler shows both the unknown-command and the caught-exception shapes, and
the concrete registry rejects the unregistered name `"frobnicate"`. -/
theorem C3_run_command_dispatch_witness :
    run_command [("boom", fun _ => Except.error "kaboom")] "t" "nope" [] =
      J.obj [("error", J.s "unknown command: nope")] ∧
    run_command [("boom", fun _ => Except.error "kaboom")] "t" "boom" [] =
      J.obj [("error", J.s "kaboom"), ("command", J.s "boom")] ∧
    run_command (COMMANDS (fun _ _ => RunOutcome.timesOut) "t") "t"
        "frobnicate" [] =
      J.obj [("error", J.s "unknown command: frobnicate")] :=
  ⟨(C3_run_command_dispatch [("boom", fun _ => Except.error "kaboom")]
      "t" "nope" []).1 rfl,
   (C3_run_command_dispatch [("boom", fun _ => Except.error "kaboom")]
      "t" "boom" []).2.1 (fun _ => Except.error "kaboom") "kaboom" rfl rfl,
   (C3_run_command_dispatch (COMMANDS (fun _ _ => RunOutcome.timesOut) "t")
      "t" "frobnicate" []).2.2 (fun _ _ => RunOutcome.timesOut) (by decide)⟩

/-- With an empty live probe output the fail2ban fallback parses nothing,
so the merged document value stands (it is 0 exactly when it was 0). -/
theorem f2bFinal_no_live (secSrc : Option (Option SecDoc)) :
    f2bFinal secSrc "" = (secBlock secSrc).f2b_banned := by
  have hp : pyIntParse "" = none := by decide
  unfold f2bFinal
  by_cases h : (secBlock secSrc).f2b_banned = 0 <;> simp [h, hp]

/-- **C5** — failure isolation: for every environment, cycle timestamp,
stored CPU state and single failing source, the produced snapshot (a total
structure: every documented field is present) equals the snapshot of the
unaffected cycle with exactly the failed source's fields reset to their
`_empty` defaults — other fields keep their values, and the two-source
`f2b_banned` field falls back to its other feed as the code prescribes. -/
theorem C5_single_failure_isolation (env : Env) (now : String)
    (prev : Option (ℤ × ℤ)) (s : Src) :
    (collect (failAt env s) now prev).1 =
      setFailDefaults s env ((collect env now prev).1) := by
  cases s <;> try rfl
  case f2bLive =>
    simp only [collect, failAt, setFailDefaults, f2bFinal_no_live]

/-- Evaluate `roundHalfEven` when the fractional part is below one half. -/
theorem roundHalfEven_eval (q : ℚ) (n : ℤ) (h1 : (n : ℚ) ≤ q)
    (h2 : q < n + 1) (h3 : q - n < 1/2) : roundHalfEven q = n := by
  have hf : ⌊q⌋ = n := Int.floor_eq_iff.mpr ⟨h1, by exact_mod_cast h2⟩
  unfold roundHalfEven
  rw [hf, if_pos h3]

/-- Evaluate `roundHalfEven` when the fractional part is above one half. -/
theorem roundHalfEven_eval_up (q : ℚ) (n : ℤ) (h1 : (n : ℚ) ≤ q)
    (h2 : q < n + 1) (h3 : 1/2 < q - n) : roundHalfEven q = n + 1 := by
  have hf : ⌊q⌋ = n := Int.floor_eq_iff.mpr ⟨h1, by exact_mod_cast h2⟩
  unfold roundHalfEven
  rw [hf, if_neg (by linarith), if_pos h3]

/-- Counterexample to **C6** as stated: with previous counters `(0, 0)` and
current counters `(1, 3)` the cycle records `cpu_pct = 67` (the code rounds
`round(100.0 * (1.0 - 1/3))`), which is not equal to the claim's exact
value `100 * (1 - (1-0)/(3-0)) = 200/3`. -/
theorem C6_cpu_pct_counterexample :
    (collect cpuEnv "00:00:00" (some (0, 0))).1.cpu_pct = 67 ∧
    (((collect cpuEnv "00:00:00" (some (0, 0))).1.cpu_pct : ℚ)) ≠
      100 * (1 - ((1 : ℚ) - 0) / ((3 : ℚ) - 0)) := by
  have key : roundHalfEven (100 * (1 - ((1 - 0 : ℤ) : ℚ) /
      ((3 - 0 : ℤ) : ℚ))) = 67 := by
    have hq : (100 : ℚ) * (1 - ((1 - 0 : ℤ) : ℚ) / ((3 - 0 : ℤ) : ℚ)) =
        200 / 3 := by push_cast; norm_num
    rw [hq, show (67 : ℤ) = 66 + 1 from rfl]
    exact roundHalfEven_eval_up (200 / 3) 66 (by norm_num) (by norm_num)
      (by norm_num)
  have hval : (collect cpuEnv "00:00:00" (some (0, 0))).1.cpu_pct = 67 := by
    simp only [collect, cpuBlock, cpuEnv, envAllFail, Option.map_some', Option.getD_some]
    rw [if_pos (by norm_num : (3 : ℤ) - 0 > 0)]
    exact key
  refine ⟨hval, ?_⟩
  rw [hval]
  norm_num

/-- **C6 (amended)** — the CPU percentage recorded by a cycle whose
`/proc/stat` read yields `(idle2, total2)` against stored counters
`(idle1, total1)` is `100 * (1 - Δidle/Δtotal)` **rounded to the nearest
integer (ties to even)** when `Δtotal > 0`; it is 0 when `Δtotal ≤ 0`; and
it is 0 on the very first cycle (no stored counters). -/
theorem C6_cpu_pct (env : Env) (now : String) (idle1 total1 idle2 total2 : ℤ)
    (h : env.procStat = some (idle2, total2)) :
    (total2 - total1 > 0 →
      (collect env now (some (idle1, total1))).1.cpu_pct =
        roundHalfEven (100 * (1 - ((idle2 - idle1 : ℤ) : ℚ) /
          ((total2 - total1 : ℤ) : ℚ)))) ∧
    (total2 - total1 ≤ 0 →
      (collect env now (some (idle1, total1))).1.cpu_pct = 0) ∧
    (collect env now none).1.cpu_pct = 0 := by
  refine ⟨fun hpos => ?_, fun hnp => ?_, ?_⟩
  · simp only [collect, cpuBlock, h]
    simp [hpos]
  · simp only [collect, cpuBlock, h]
    simp [not_lt.mpr hnp]
  · simp [collect, cpuBlock, h]

/-- Witness for `C6_cpu_pct`: counters `(1, 2)` then `(5, 10)` give
`round(100 * (1 - 4/8)) = 50`; counters `(0, 20)` then `(5, 10)` give a
non-positive total delta, hence 0; and a first cycle gives 0. -/
theorem C6_cpu_pct_witness :
    (collect { cpuEnv with procStat := some (5, 10) } "x"
        (some (1, 2))).1.cpu_pct = 50 ∧
    (collect { cpuEnv with procStat := some (5, 10) } "x"
        (some (0, 20))).1.cpu_pct = 0 ∧
    (collect { cpuEnv with procStat := some (5, 10) } "x" none).1.cpu_pct
      = 0 := by
  have h := C6_cpu_pct { cpuEnv with procStat := some (5, 10) } "x"
    1 2 5 10 rfl
  have h2 := C6_cpu_pct { cpuEnv with procStat := some (5, 10) } "x"
    0 20 5 10 rfl
  have k50 : roundHalfEven (100 * (1 - ((5 - 1 : ℤ) : ℚ) /
      ((10 - 2 : ℤ) : ℚ))) = 50 := by
    have hq : (100 : ℚ) * (1 - ((5 - 1 : ℤ) : ℚ) / ((10 - 2 : ℤ) : ℚ)) =
        50 := by push_cast; norm_num
    rw [hq]
    exact roundHalfEven_eval 50 50 (by norm_num) (by norm_num) (by norm_num)
  exact ⟨(h.1 (by norm_num)).trans k50, h2.2.1 (by norm_num), h.2.2⟩

/-- Looking up a key in a list of `(key, f key)` pairs built from a list
containing it yields `f` of that key. -/
theorem lookup_map_pair {β : Type} (f : String → β) (l : List String)
    (a : String) (h : a ∈ l) :
    List.lookup a (l.map (fun k => (k, f k))) = some (f a) := by
  induction l with
  | nil => cases h
  | cons b rest ih =>
    rcases List.mem_cons.mp h with rfl | hmem
    · simp [List.lookup]
    · by_cases hab : a = b
      · subst hab; simp [List.lookup]
      · simp [List.lookup, beq_eq_false_iff_ne.mpr hab, ih hmem]

/-- Counterexample to **C8** as stated: when the service-manager query
outputs `"failed"`, both the `service-status` command result and the
dashboard snapshot record the state `"failed"`, which is none of
`"active"`, `"inactive"`, `"unknown"` — the code stores the query's
stdout verbatim whenever it is nonempty. -/
theorem C8_service_states_counterexample :
    jGet (cmd_service_status w8 "t" []).1 "services" =
      some (J.obj (monitoredServices.map (fun s0 => (s0, J.s "failed")))) ∧
    List.lookup "ssh" (monitoredServices.map (fun s0 => (s0, J.s "failed"))) =
      some (J.s "failed") ∧
    (collect { envAllFail with svcSsh := "failed" } "t" none).1.svc_ssh =
      "failed" ∧
    "failed" ∉ (["active", "inactive", "unknown"] : List String) :=
  ⟨rfl, rfl, rfl, by decide⟩

/-- **C8 (amended)** — for every monitored service, the recorded activity
state is the service-manager query's stripped stdout whenever that is
nonempty (systemd may report states beyond `active`/`inactive`, e.g.
`failed`), and the sentinel `"unknown"` when the query yields nothing
(failure, timeout or empty output); this holds both for the
`service-status` command result and for the snapshot's service fields. -/
theorem C8_service_state_strings (w : World) (ts : String) (args : Args)
    (env : Env) (now : String) (prev : Option (ℤ × ℤ)) :
    (∀ svc, svc ∈ monitoredServices →
      jGet (cmd_service_status w ts args).1 "services" =
        some (J.obj (monitoredServices.map (fun s0 =>
          (s0, J.s (pyOr (agentRun w (svcQuery s0) 5).stdout "unknown"))))) ∧
      List.lookup svc (monitoredServices.map (fun s0 =>
          (s0, J.s (pyOr (agentRun w (svcQuery s0) 5).stdout "unknown")))) =
        some (J.s (pyOr (agentRun w (svcQuery svc) 5).stdout "unknown"))) ∧
    ((collect env now prev).1.svc_ssh = pyOr env.svcSsh "unknown" ∧
     (collect env now prev).1.svc_tailscale =
       pyOr env.svcTailscaled "unknown" ∧
     (collect env now prev).1.svc_fail2ban = pyOr env.svcFail2ban "unknown" ∧
     (collect env now prev).1.svc_suricata = pyOr env.svcSuricata "unknown" ∧
     (collect env now prev).1.svc_auditd = pyOr env.svcAuditd "unknown") := by
  refine ⟨fun svc h => ⟨rfl, lookup_map_pair _ _ svc h⟩,
    rfl, rfl, rfl, rfl, rfl⟩

/-- Witness for `C8_service_state_strings`: with every query reporting
`active`, the `suricata` entry of the `service-status` result is
`J.s "active"`, and a snapshot whose probes all failed reports
`svc_ssh = "unknown"`. -/
theorem C8_service_state_strings_witness :
    List.lookup "suricata" (monitoredServices.map (fun s0 =>
        (s0, J.s (pyOr (agentRun (fun _ _ => RunOutcome.completes "active" "" 0)
          (svcQuery s0) 5).stdout "unknown")))) =
      some (J.s "active") ∧
    (collect envAllFail "t" none).1.svc_ssh = "unknown" :=
  ⟨(((C8_service_state_strings (fun _ _ => RunOutcome.completes "active" "" 0)
      "t" [] envAllFail "t" none).1 "suricata" (by decide)).2).trans rfl,
   (C8_service_state_strings w8 "t" [] envAllFail "t" none).2.1.trans rfl⟩
